import Mathlib

/-!
Verification development for the SignalForge / cloud-signal-engine
detection platform.  The repository ships the frontend (Next.js
components under `frontend/`) and the design documentation; the Python
backend (`backend/app/services/detection_engine.py`, the rules, and the
alert lifecycle API) is described by the specification and the docs but
its source is not present, so those parts are modelled from the spec.
Time instants are integers counting minutes (UTC).
-/

namespace SignalForge

/-- Time instant, in minutes. -/
abbrev Instant := Int

/-- Severity levels of rules and alerts (§3 of the spec, `frontend/types/index.ts`). -/
inductive Severity
  | low
  | medium
  | high
  | critical
deriving DecidableEq, Repr

/-- Alert lifecycle states (§4.6 of the spec, `frontend/types/index.ts`). -/
inductive AlertStatus
  | opn
  | triaged
  | closed
  | false_positive
deriving DecidableEq, Repr

/-- Subject kind of a finding or allowlist entry: `ip` or `actor` (§3). -/
inductive SubjectKind
  | ip
  | actor
deriving DecidableEq, Repr

/-- Canonical security event (§3 of the spec; `events` table of
`docs/architecture.md`).  `raw_data` is an opaque payload kept as a string. -/
structure Event where
  id : Nat
  timestamp : Instant
  actor : Option String
  source_ip : Option String
  user_agent : Option String
  action : String
  resource : Option String
  outcome : Option String
  request_id : Option String
  raw_data : String
deriving DecidableEq, Repr

/-- Candidate finding produced by a rule (§3): identification, timing and
the subjects used for allowlist and dedup matching. -/
structure CandidateFinding where
  rule_id : String
  severity : Severity
  summary : String
  alert_time : Instant
  window_start : Instant
  window_end : Instant
  subjects : List (SubjectKind × String)
deriving DecidableEq, Repr

/-- Allowlist entry (§3 of the spec; `allowlist` table of
`docs/architecture.md`). -/
structure AllowlistEntry where
  entry_type : SubjectKind
  entry_value : String
  reason : String
  rule_id : Option String
  expires_at : Option Instant
  created_by : Option String
deriving DecidableEq, Repr

/-- Persistent alert row (§3 of the spec; `alerts` table of
`docs/architecture.md`). -/
structure Alert where
  id : Nat
  rule_id : String
  severity : Severity
  status : AlertStatus
  summary : String
  alert_time : Instant
  window_start : Option Instant
  window_end : Option Instant
  created_at : Instant
  updated_at : Instant
deriving DecidableEq, Repr

/-- False-Positive audit record (§3 of the spec; `false_positives` table of
`docs/architecture.md`). -/
structure FalsePositiveRecord where
  alert_id : Nat
  reason : String
  marked_by : Option String
  marked_at : Instant
deriving DecidableEq, Repr

/-! ## Alert lifecycle (§4.6)

Modelled from the spec: the lifecycle state machine lives in the backend
alert API (`backend/app/routers/alerts.py`), which is not present in the
repository snapshot; the transition relation below follows §4.6 verbatim. -/

/-- Modelled from the spec: the valid one-step transitions of §4.6 —
`open → triaged/closed/false_positive`, `triaged → closed/false_positive`,
`closed → open`, `false_positive → open`, and nothing else. -/
def validTransition : AlertStatus → AlertStatus → Bool
  | .opn, .triaged => true
  | .opn, .closed => true
  | .opn, .false_positive => true
  | .triaged, .closed => true
  | .triaged, .false_positive => true
  | .closed, .opn => true
  | .false_positive, .opn => true
  | _, _ => false

/-- A string that JavaScript's `trim()` reduces to the empty string, i.e.
an empty or whitespace-only string: the guard `!fpReason.trim()` of the
triage panel holds exactly for these. -/
def isBlank (s : String) : Bool := s.data.all Char.isWhitespace

/-- Errors surfaced by the lifecycle API (§4.6, §7): an invalid transition
request, and a false-positive request without a usable reason. -/
inductive TransitionError
  | invalidTransition
  | emptyReason
deriving DecidableEq, Repr

/-- Lifecycle state of one alert: the alert row together with the
False-Positive records appended for it (§3: the records are appended,
never replacing the alert row). -/
structure LifecycleState where
  alert : Alert
  fpRecords : List FalsePositiveRecord
deriving DecidableEq, Repr

/-- Modelled from the spec: the status-transition operation of §4.6 on the
backend (not present under the repository snapshot).  A valid transition
updates `status` and refreshes `updated_at`; an invalid one fails with
`InvalidTransition` and produces no new state. -/
def requestTransition (st : LifecycleState) (target : AlertStatus) (now : Instant) :
    Except TransitionError LifecycleState :=
  if validTransition st.alert.status target then
    .ok { st with alert := { st.alert with status := target, updated_at := now } }
  else
    .error .invalidTransition

/-- Modelled from the spec: the false-positive marking operation of §4.6
(`POST /api/v1/alerts/id/false-positive`, backend not present).  It
requires a non-empty (after trimming) reason, requires the transition to
`false_positive` to be valid, and appends a False-Positive record without
replacing the alert row. -/
def markFalsePositive (st : LifecycleState) (reason : String) (marked_by : Option String)
    (now : Instant) : Except TransitionError LifecycleState :=
  if isBlank reason then .error .emptyReason
  else if validTransition st.alert.status .false_positive then
    .ok { alert := { st.alert with status := .false_positive, updated_at := now },
          fpRecords := st.fpRecords ++ [⟨st.alert.id, reason, marked_by, now⟩] }
  else .error .invalidTransition

/-- A triage request against the lifecycle API: either a plain status
update or a false-positive marking with a reason. -/
inductive TriageOp
  | setStatus (target : AlertStatus)
  | markFP (reason : String) (marked_by : Option String)
deriving DecidableEq, Repr

/-- Apply one triage request; a failed request leaves the state unchanged
(§7: `InvalidTransition` is surfaced to the caller, alert left unchanged). -/
def applyOp (st : LifecycleState) (op : TriageOp) (now : Instant) : LifecycleState :=
  match op with
  | .setStatus target =>
      match requestTransition st target now with
      | .ok st' => st'
      | .error _ => st
  | .markFP reason marked_by =>
      match markFalsePositive st reason marked_by now with
      | .ok st' => st'
      | .error _ => st

/-- Apply a sequence of timestamped triage requests in order. -/
def applyOps (st : LifecycleState) : List (TriageOp × Instant) → LifecycleState
  | [] => st
  | (op, t) :: rest => applyOps (applyOp st op t) rest

/-! ## Allowlist Filter (§4.3)

Modelled from the spec: the filter runs in the backend detection engine
(`backend/app/services/detection_engine.py`), not present in the
repository snapshot; the definitions follow §4.3 and the activity
invariant of §3 verbatim. -/

/-- Modelled from the spec: §3 invariant — an allowlist entry is active at
evaluation time iff `expires_at` is null or in the future. -/
def entryActive (e : AllowlistEntry) (now : Instant) : Bool :=
  match e.expires_at with
  | none => true
  | some t => now < t

/-- Modelled from the spec: §4.3 — an entry matches a candidate when its
`entry_value` equals one of the candidate's subject values, its
`entry_type` matches that subject's kind, and its `rule_id` is null or
equals the candidate's `rule_id` (exact-value matching). -/
def entryMatches (e : AllowlistEntry) (c : CandidateFinding) : Bool :=
  (match e.rule_id with
   | none => true
   | some r => r == c.rule_id) &&
  c.subjects.any (fun s => s.1 == e.entry_type && s.2 == e.entry_value)

/-- Modelled from the spec: §4.3 — a candidate is suppressed iff some
active entry matches it (a multi-subject candidate is suppressed when any
one subject matches). -/
def suppressedByAllowlist (c : CandidateFinding) (entries : List AllowlistEntry)
    (now : Instant) : Bool :=
  entries.any (fun e => entryActive e now && entryMatches e c)

/-- Modelled from the spec: §4.3 `filter(candidates, active_entries)` —
keeps exactly the candidates not suppressed by the allowlist. -/
def allowlistFilter (candidates : List CandidateFinding) (entries : List AllowlistEntry)
    (now : Instant) : List CandidateFinding :=
  candidates.filter (fun c => !suppressedByAllowlist c entries now)

/-! ## Deduplicator (§4.4)

Modelled from the spec and `docs/architecture.md` ("If same `rule_id`
triggered in last 1 hour, suppress"); the backend implementation is not
present in the repository snapshot. -/

/-- The dedup lookback of §4.4: 1 hour, in minutes. -/
def dedupLookbackMinutes : Int := 60

/-- Modelled from the spec: §4.4 — a candidate duplicates a recent alert
when some alert with the same `rule_id` and an `alert_time` within the
last hour already exists in the store, regardless of subject. -/
def recentDuplicate (store : List Alert) (c : CandidateFinding) (now : Instant) : Bool :=
  store.any (fun a => a.rule_id == c.rule_id && now - dedupLookbackMinutes ≤ a.alert_time)

/-- Modelled from the spec: §4.4 `dedupe(candidates, alert_store, lookback)` —
keeps exactly the candidates that do not duplicate a recent alert. -/
def dedupe (candidates : List CandidateFinding) (store : List Alert)
    (now : Instant) : List CandidateFinding :=
  candidates.filter (fun c => !recentDuplicate store c now)

/-! ## Rule Executor and detection run (§4.1, §4.2, §4.5)

Modelled from the spec: `backend/app/services/detection_engine.py` and the
rule classes under `backend/app/services/rules/` are not present in the
repository snapshot.  A rule is a `rule_id`, a window span and a fallible
`detect` function over the event source, per the abstract rule interface
shown in `docs/architecture.md`. -/

/-- A detection rule (§3 rule definition, §4.2 interface): its stable id,
severity, lookback span and `detect(event_source, window_start, window_end)`
which may fail with a rule-evaluation error message. -/
structure Rule where
  rule_id : String
  severity : Severity
  window_minutes : Nat
  detect : List Event → Instant → Instant → Except String (List CandidateFinding)

/-- Modelled from the spec: §4.1 Window Scheduler —
`window_start = now - window_minutes`, `window_end = now`. -/
def windowStart (now : Instant) (r : Rule) : Instant :=
  now - (r.window_minutes : Int)

/-- Modelled from the spec: §4.2 `run_all(rules, event_source, now)` — runs
each rule on its own window, collecting candidates in rule order and
recording each failure in the per-rule error mapping without aborting the
remaining rules. -/
def run_all (rules : List Rule) (events : List Event) (now : Instant) :
    List CandidateFinding × List (String × String) :=
  rules.foldl
    (fun acc r =>
      match r.detect events (windowStart now r) now with
      | .ok cs => (acc.1 ++ cs, acc.2)
      | .error e => (acc.1, acc.2 ++ [(r.rule_id, e)]))
    ([], [])

/-- Modelled from the spec: §4.5 Alert Materializer — persists one
surviving candidate as a new alert row with `status = open` and
`created_at = updated_at = now`. -/
def alertOfCandidate (c : CandidateFinding) (now : Instant) (id : Nat) : Alert :=
  { id := id, rule_id := c.rule_id, severity := c.severity, status := .opn,
    summary := c.summary, alert_time := c.alert_time,
    window_start := some c.window_start, window_end := some c.window_end,
    created_at := now, updated_at := now }

/-- Modelled from the spec: §4.5 — materializes the surviving candidates in
order, assigning consecutive fresh ids. -/
def materialize : List CandidateFinding → Instant → Nat → List Alert
  | [], _, _ => []
  | c :: cs, now, nextId => alertOfCandidate c now nextId :: materialize cs now (nextId + 1)

/-- Run summary returned by a detection run (§4.5). -/
structure RunSummary where
  alerts_generated : Nat
  rules_executed : List String
  rules_failed : List (String × String)
deriving DecidableEq, Repr

/-- Modelled from the spec: §2 data flow / §4.5 `run_detections(now)` —
run all rules, filter by the allowlist, dedupe against the alert store as
of run start, materialize the survivors, and return the updated store with
the run summary. -/
def run_detections (rules : List Rule) (events : List Event)
    (entries : List AllowlistEntry) (store : List Alert) (now : Instant)
    (nextId : Nat) : List Alert × RunSummary :=
  let ran := run_all rules events now
  let surviving := dedupe (allowlistFilter ran.1 entries now) store now
  let newAlerts := materialize surviving now nextId
  (store ++ newAlerts,
   { alerts_generated := newAlerts.length,
     rules_executed := rules.map (·.rule_id),
     rules_failed := ran.2 })

/-! ## brute_force_login rule (§4.2 catalog)

Modelled from the spec and the SQL of `docs/detection_rules.md`
("Brute Force Login Detection"); the implementation
`backend/app/services/rules/brute_force.py` is not present in the
repository snapshot. -/

/-- The fixed login-family action alias set (§4.2 catalog). -/
def loginFamilyActions : List String := ["user.login", "login", "signin"]

/-- Modelled from the spec: the events relevant to `brute_force_login` —
login-family action, `outcome = failure`, timestamp between the window
bounds (the SQL of `docs/detection_rules.md`). -/
def bruteForceRelevant (events : List Event) (ws we : Instant) : List Event :=
  events.filter (fun e =>
    loginFamilyActions.contains e.action && e.outcome == some "failure" &&
    decide (ws ≤ e.timestamp) && decide (e.timestamp ≤ we))

/-- Number of relevant failed login events attributed to one source IP
group (the SQL `GROUP BY source_ip` count). -/
def bruteForceFailureCount (events : List Event) (ws we : Instant)
    (ip : Option String) : Nat :=
  (bruteForceRelevant events ws we).countP (fun e => e.source_ip == ip)

/-- The candidate `brute_force_login` emits for one source-IP group. -/
def bruteForceCandidate (ip : Option String) (_count : Nat) (ws we : Instant) :
    CandidateFinding :=
  { rule_id := "brute_force_login", severity := .high,
    summary := "Brute force attack detected", alert_time := we,
    window_start := ws, window_end := we,
    subjects := match ip with
      | some v => [(SubjectKind.ip, v)]
      | none => [] }

/-- Modelled from the spec: the `brute_force_login` detect logic — group
the relevant failed login events by `source_ip` and emit one finding per
group whose count reaches the threshold 5 (`HAVING COUNT(*) >= 5`). -/
def bruteForceDetect (events : List Event) (ws we : Instant) : List CandidateFinding :=
  let rel := bruteForceRelevant events ws we
  let groups := (rel.map (·.source_ip)).dedup
  groups.filterMap (fun ip =>
    let n := rel.countP (fun e => e.source_ip == ip)
    if 5 ≤ n then some (bruteForceCandidate ip n ws we) else none)

/-! ## Frontend (present in the repository under `frontend/`) -/

namespace Frontend

/-- Alert shape received over the wire by the dashboard
(`frontend/types/index.ts`): statuses and severities arrive as strings and
`evidence` is an arbitrarily nested JSON document consumed opaquely, kept
here as its serialized form. -/
structure Alert where
  id : Nat
  rule_id : String
  severity : String
  status : String
  summary : String
  evidence : String
  alert_time : String
  window_start : Option String
  window_end : Option String
  created_at : String
  updated_at : String
deriving DecidableEq, Repr

/-- From `HomePage` (`frontend/app/page.tsx`): the filter predicate of
`filteredAlerts` — drop the alert when the status filter is set and
differs from its status, or the severity filter is set and differs from
its severity; keep it otherwise. -/
def alertVisible (statusFilter severityFilter : String) (a : Alert) : Bool :=
  if statusFilter != "all" && a.status != statusFilter then false
  else if severityFilter != "all" && a.severity != severityFilter then false
  else true

/-- From `HomePage`: `filteredAlerts = alerts.filter(...)`. -/
def filteredAlerts (alerts : List Alert) (statusFilter severityFilter : String) :
    List Alert :=
  alerts.filter (alertVisible statusFilter severityFilter)

/-- The four stat counters rendered by `HomePage`. -/
structure Stats where
  total : Nat
  opn : Nat
  critical : Nat
  high : Nat
deriving DecidableEq, Repr

/-- From `HomePage`: the `stats` object, computed over the full fetched
list `alerts`, not over `filteredAlerts`. -/
def stats (alerts : List Alert) : Stats :=
  { total := alerts.length,
    opn := (alerts.filter (fun a => a.status == "open")).length,
    critical := (alerts.filter (fun a => a.severity == "critical")).length,
    high := (alerts.filter (fun a => a.severity == "high")).length }

/-- What `HomePage` renders for a given fetched list and dropdown choice:
the filtered alert list and the stat counters. -/
def homePageView (alerts : List Alert) (statusFilter severityFilter : String) :
    List Alert × Stats :=
  (filteredAlerts alerts statusFilter severityFilter, stats alerts)

/-- The HTTP request a triage-panel click ends up issuing, if any. -/
inductive UIRequest
  | noRequest
  | patchStatus (status : String)
  | postFalsePositive (reason : String)
deriving DecidableEq, Repr

/-- From `markFalsePositive` in `frontend/components/triage-panel.tsx`:
a reason that trims to the empty string only shows a prompt and returns
before any request is made; otherwise a POST to the false-positive
endpoint carries the (untrimmed) reason. -/
def markFalsePositiveClick (fpReason : String) : UIRequest :=
  if isBlank fpReason then .noRequest else .postFalsePositive fpReason

end Frontend

/-! ## Sample data used by concrete instances -/

/-- A sample open alert row. -/
def sampleAlertOpen : Alert :=
  { id := 1, rule_id := "brute_force_login", severity := .high, status := .opn,
    summary := "Brute force attack detected", alert_time := 590,
    window_start := some 575, window_end := some 590,
    created_at := 590, updated_at := 590 }

/-- A sample candidate finding for `brute_force_login`. -/
def sampleCandidate : CandidateFinding :=
  { rule_id := "brute_force_login", severity := .high,
    summary := "Brute force attack detected", alert_time := 600,
    window_start := 585, window_end := 600,
    subjects := [(SubjectKind.ip, "203.0.113.45")] }

/-- An alert for the same rule whose `alert_time` is 10 minutes before the
evaluation instant 600. -/
def sampleRecentAlert : Alert :=
  { sampleAlertOpen with id := 2, alert_time := 590 }

/-- An alert for the same rule whose `alert_time` is 61 minutes before the
evaluation instant 600. -/
def sampleStaleAlert : Alert :=
  { sampleAlertOpen with id := 3, alert_time := 539 }

/-- A sample failed login event from one source IP. -/
def sampleLoginFailure (i : Nat) (t : Instant) (ip : String) : Event :=
  { id := i, timestamp := t, actor := some "alice", source_ip := some ip,
    user_agent := none, action := "user.login", resource := none,
    outcome := some "failure", request_id := none, raw_data := "" }

/-- Exactly four failed logins from `203.0.113.45` inside the window `[0, 15]`. -/
def fourFailures : List Event :=
  [sampleLoginFailure 1 1 "203.0.113.45", sampleLoginFailure 2 2 "203.0.113.45",
   sampleLoginFailure 3 3 "203.0.113.45", sampleLoginFailure 4 4 "203.0.113.45"]

/-- Exactly five failed logins from `203.0.113.45` inside the window `[0, 15]`. -/
def fiveFailures : List Event :=
  fourFailures ++ [sampleLoginFailure 5 5 "203.0.113.45"]

/-- The state reached from the open sample alert after marking it false
positive at instant 70. -/
def sampleMarkedState : LifecycleState :=
  { alert := { sampleAlertOpen with status := .false_positive, updated_at := 70 },
    fpRecords := [⟨1, "maintenance scan", none, 70⟩] }

/-- A triage sequence: mark false positive, reopen, close again. -/
def sampleOps : List (TriageOp × Instant) :=
  [(.markFP "maintenance scan" none, 70), (.setStatus .opn, 80), (.setStatus .closed, 90)]

/-- A rule that always fails its evaluation. -/
def ruleFails : Rule :=
  { rule_id := "impossible_travel", severity := .high, window_minutes := 60,
    detect := fun _ _ _ => .error "query failed" }

/-- A rule that always emits the sample candidate. -/
def ruleEmits : Rule :=
  { rule_id := "brute_force_login", severity := .high, window_minutes := 15,
    detect := fun _ _ _ => .ok [sampleCandidate] }

/-! ## Lifecycle theorems -/

/-- Characterization of a successful false-positive marking: it needs a
reason that survives trimming and a state from which `false_positive` is
reachable, and it appends exactly one record. -/
lemma markFalsePositive_ok_iff (st : LifecycleState) (reason : String)
    (mb : Option String) (now : Instant) (st' : LifecycleState) :
    markFalsePositive st reason mb now = .ok st' ↔
      (isBlank reason = false ∧ validTransition st.alert.status .false_positive = true ∧
       st' = { alert := { st.alert with status := .false_positive, updated_at := now },
               fpRecords := st.fpRecords ++ [⟨st.alert.id, reason, mb, now⟩] }) := by
  unfold markFalsePositive
  by_cases h1 : isBlank reason = true
  · simp [h1]
  · rw [Bool.not_eq_true] at h1
    by_cases h2 : validTransition st.alert.status .false_positive = true
    · simp [h1, h2]
      exact eq_comm
    · rw [Bool.not_eq_true] at h2
      simp [h1, h2]

/-- One triage request never removes false-positive records: the records
after it extend the records before it. -/
lemma applyOp_fpRecords_extend (st : LifecycleState) (op : TriageOp) (t : Instant) :
    ∃ rest, (applyOp st op t).fpRecords = st.fpRecords ++ rest := by
  cases op with
  | setStatus target =>
      by_cases h : validTransition st.alert.status target = true
      · exact ⟨[], by simp [applyOp, requestTransition, h]⟩
      · exact ⟨[], by simp [applyOp, requestTransition, h]⟩
  | markFP reason mb =>
      by_cases h1 : isBlank reason = true
      · exact ⟨[], by simp [applyOp, markFalsePositive, h1]⟩
      · by_cases h2 : validTransition st.alert.status .false_positive = true
        · exact ⟨[⟨st.alert.id, reason, mb, t⟩],
            by simp [applyOp, markFalsePositive, h1, h2]⟩
        · exact ⟨[], by simp [applyOp, markFalsePositive, h1, h2]⟩

/-- A whole triage sequence never removes false-positive records. -/
lemma applyOps_fpRecords_extend (ops : List (TriageOp × Instant)) :
    ∀ st : LifecycleState, ∃ rest, (applyOps st ops).fpRecords = st.fpRecords ++ rest := by
  induction ops with
  | nil => exact fun st => ⟨[], (List.append_nil _).symm⟩
  | cons p rest ih =>
      intro st
      obtain ⟨op, t⟩ := p
      obtain ⟨r1, h1⟩ := applyOp_fpRecords_extend st op t
      obtain ⟨r2, h2⟩ := ih (applyOp st op t)
      exact ⟨r1 ++ r2, by simp [applyOps, h2, h1]⟩

/-- The Boolean activity test agrees with the spec's phrasing: active iff
`expires_at` is null or strictly in the future. -/
lemma entryActive_iff (e : AllowlistEntry) (now : Instant) :
    entryActive e now = true ↔
      (e.expires_at = none ∨ ∃ t, e.expires_at = some t ∧ now < t) := by
  unfold entryActive
  cases h : e.expires_at with
  | none => simp
  | some t => simp [h]

/-- The Boolean entry-match test agrees with the spec's phrasing: the
value equals one of the candidate's subject values of the matching kind,
and the entry's `rule_id` is null or equals the candidate's. -/
lemma entryMatches_iff (e : AllowlistEntry) (c : CandidateFinding) :
    entryMatches e c = true ↔
      ((∃ s ∈ c.subjects, s.1 = e.entry_type ∧ s.2 = e.entry_value) ∧
       (e.rule_id = none ∨ e.rule_id = some c.rule_id)) := by
  unfold entryMatches
  rw [Bool.and_eq_true, List.any_eq_true]
  cases h : e.rule_id with
  | none => simp
  | some r =>
      simp only [Bool.and_eq_true, beq_iff_eq, Option.some.injEq]
      constructor
      · rintro ⟨h1, s, hs, h2, h3⟩
        exact ⟨⟨s, hs, h2, h3⟩, Or.inr h1⟩
      · rintro ⟨⟨s, hs, h2, h3⟩, h1 | h1⟩
        · exact absurd h1 (by simp)
        · exact ⟨h1, s, hs, h2, h3⟩

/-- The Boolean suppression test agrees with the spec's phrasing of §4.3. -/
lemma suppressedByAllowlist_iff (c : CandidateFinding) (entries : List AllowlistEntry)
    (now : Instant) :
    suppressedByAllowlist c entries now = true ↔
      ∃ e ∈ entries,
        (e.expires_at = none ∨ ∃ t, e.expires_at = some t ∧ now < t) ∧
        (∃ s ∈ c.subjects, s.1 = e.entry_type ∧ s.2 = e.entry_value) ∧
        (e.rule_id = none ∨ e.rule_id = some c.rule_id) := by
  unfold suppressedByAllowlist
  rw [List.any_eq_true]
  constructor
  · rintro ⟨e, he, hb⟩
    rw [Bool.and_eq_true] at hb
    obtain ⟨ha, hm⟩ := hb
    rw [entryMatches_iff] at hm
    exact ⟨e, he, (entryActive_iff e now).1 ha, hm.1, hm.2⟩
  · rintro ⟨e, he, hact, hsub, hrule⟩
    refine ⟨e, he, ?_⟩
    rw [Bool.and_eq_true]
    exact ⟨(entryActive_iff e now).2 hact, (entryMatches_iff e c).2 ⟨hsub, hrule⟩⟩

/-- The Boolean recent-duplicate test agrees with the spec's phrasing of
§4.4: some stored alert has the same `rule_id` and an `alert_time` within
the last hour. -/
lemma recentDuplicate_iff (store : List Alert) (c : CandidateFinding) (now : Instant) :
    recentDuplicate store c now = true ↔
      ∃ a ∈ store, a.rule_id = c.rule_id ∧
        now - dedupLookbackMinutes ≤ a.alert_time := by
  unfold recentDuplicate
  rw [List.any_eq_true]
  simp [Bool.and_eq_true, beq_iff_eq]

/-- Boolean negation bridge for filter membership. -/
lemma bool_not_eq_true_iff (b : Bool) : ((!b) = true) ↔ ¬ (b = true) := by
  cases b <;> simp

/-- C1: the alert lifecycle's valid one-step transitions are exactly
`open → {triaged, closed, false_positive}`, `triaged → {closed,
false_positive}`, `closed → {open}` and `false_positive → {open}`; in
particular a `closed` alert cannot move to `false_positive` in one step
and must be reopened first. -/
theorem claim_C1_lifecycle_valid_transitions :
    (∀ s t : AlertStatus, validTransition s t = true ↔
      ((s = .opn ∧ (t = .triaged ∨ t = .closed ∨ t = .false_positive)) ∨
       (s = .triaged ∧ (t = .closed ∨ t = .false_positive)) ∨
       (s = .closed ∧ t = .opn) ∨
       (s = .false_positive ∧ t = .opn))) ∧
    validTransition .closed .false_positive = false := by
  refine ⟨fun s t => ?_, rfl⟩
  cases s <;> cases t <;> decide

/-- C5: a transition request outside the valid relation fails with
`InvalidTransition` and yields no new state (the alert is left unchanged
rather than silently no-opping); a valid request updates only the status
and refreshes `updated_at`. -/
theorem claim_C5_invalid_transition_surfaces_error :
    ∀ (st : LifecycleState) (target : AlertStatus) (now : Instant),
      (requestTransition st target now = .error .invalidTransition ↔
        validTransition st.alert.status target = false) ∧
      (validTransition st.alert.status target = true →
        requestTransition st target now =
          .ok { st with alert := { st.alert with status := target, updated_at := now } }) := by
  intro st target now
  by_cases h : validTransition st.alert.status target = true
  · refine ⟨by simp [requestTransition, h], fun _ => by simp [requestTransition, h]⟩
  · have h' : validTransition st.alert.status target = false := by simpa using h
    exact ⟨by simp [requestTransition, h'], fun h2 => absurd h2 h⟩

/-- Witness for C5 at a concrete open alert: the valid transition to
`triaged` succeeds and refreshes `updated_at`. -/
theorem claim_C5_witness :
    requestTransition ⟨sampleAlertOpen, []⟩ .triaged 100 =
      .ok { alert := { sampleAlertOpen with status := .triaged, updated_at := 100 },
            fpRecords := [] } :=
  (claim_C5_invalid_transition_surfaces_error ⟨sampleAlertOpen, []⟩ .triaged 100).2 (by decide)

/-- C8: for an alert in status `open` or `triaged`, a false-positive
request with a reason that trims to the empty string issues no HTTP
request from the triage panel and would be rejected by the lifecycle, so
no transition occurs; a non-empty reason issues the request and the
transition succeeds, appending exactly one False-Positive record. -/
theorem claim_C8_false_positive_reason_required :
    ∀ (st : LifecycleState) (reason : String) (marked_by : Option String) (now : Instant),
      st.alert.status = .opn ∨ st.alert.status = .triaged →
      ((isBlank reason = true →
          Frontend.markFalsePositiveClick reason = .noRequest ∧
          markFalsePositive st reason marked_by now = .error .emptyReason) ∧
       (isBlank reason = false →
          Frontend.markFalsePositiveClick reason = .postFalsePositive reason ∧
          markFalsePositive st reason marked_by now =
            .ok { alert := { st.alert with status := .false_positive, updated_at := now },
                  fpRecords := st.fpRecords ++ [⟨st.alert.id, reason, marked_by, now⟩] })) := by
  intro st reason marked_by now hstatus
  have hvalid : validTransition st.alert.status .false_positive = true := by
    rcases hstatus with h | h <;> rw [h] <;> rfl
  constructor
  · intro h
    exact ⟨by simp [Frontend.markFalsePositiveClick, h],
           by simp [markFalsePositive, h]⟩
  · intro h
    exact ⟨by simp [Frontend.markFalsePositiveClick, h],
           by simp [markFalsePositive, h, hvalid]⟩

/-- Witness for C8 at a concrete open alert and a concrete non-empty
reason: the panel issues the POST and the lifecycle appends the record. -/
theorem claim_C8_witness :
    Frontend.markFalsePositiveClick "maintenance scan" =
        .postFalsePositive "maintenance scan" ∧
    markFalsePositive ⟨sampleAlertOpen, []⟩ "maintenance scan" none 70 =
      .ok { alert := { sampleAlertOpen with status := .false_positive, updated_at := 70 },
            fpRecords := ([] : List FalsePositiveRecord) ++
              [⟨sampleAlertOpen.id, "maintenance scan", none, 70⟩] } :=
  (claim_C8_false_positive_reason_required ⟨sampleAlertOpen, []⟩ "maintenance scan"
    none 70 (Or.inl rfl)).2 (by decide)

/-- C9: reopening is valid from both `closed` and `false_positive`;
marking false positive appends one record keeping the alert row (same id);
and no sequence of later triage requests (reopen, re-close, further
markings) ever erases previously appended records. -/
theorem claim_C9_reopen_preserves_history :
    (validTransition .closed .opn = true ∧ validTransition .false_positive .opn = true) ∧
    (∀ (st : LifecycleState) (reason : String) (mb : Option String) (now : Instant)
       (st' : LifecycleState),
       markFalsePositive st reason mb now = .ok st' →
         st'.alert.id = st.alert.id ∧
         st'.fpRecords = st.fpRecords ++ [⟨st.alert.id, reason, mb, now⟩]) ∧
    (∀ (st : LifecycleState) (ops : List (TriageOp × Instant)),
       ∃ rest, (applyOps st ops).fpRecords = st.fpRecords ++ rest) := by
  refine ⟨⟨rfl, rfl⟩, ?_, fun st ops => applyOps_fpRecords_extend ops st⟩
  intro st reason mb now st' h
  rw [markFalsePositive_ok_iff] at h
  rw [h.2.2]
  exact ⟨rfl, rfl⟩

/-- Witness for C9: the concrete marking reaches `sampleMarkedState` with
the record appended, and the concrete mark/reopen/close sequence extends
the (empty) record list. -/
theorem claim_C9_witness :
    (sampleMarkedState.alert.id = (⟨sampleAlertOpen, []⟩ : LifecycleState).alert.id ∧
     sampleMarkedState.fpRecords =
       (⟨sampleAlertOpen, ([] : List FalsePositiveRecord)⟩ : LifecycleState).fpRecords ++
         [⟨(⟨sampleAlertOpen, ([] : List FalsePositiveRecord)⟩ : LifecycleState).alert.id,
           "maintenance scan", none, 70⟩]) ∧
    ∃ rest, (applyOps ⟨sampleAlertOpen, []⟩ sampleOps).fpRecords =
      ([] : List FalsePositiveRecord) ++ rest :=
  ⟨claim_C9_reopen_preserves_history.2.1 ⟨sampleAlertOpen, []⟩ "maintenance scan"
      none 70 sampleMarkedState (by rfl),
   claim_C9_reopen_preserves_history.2.2 ⟨sampleAlertOpen, []⟩ sampleOps⟩

/-- C2: the Allowlist Filter keeps a candidate iff no entry that is active
at evaluation time (`expires_at` null or in the future) matches one of its
subjects in both kind and value with a `rule_id` that is null or equal to
the candidate's; an expired entry never suppresses, and any one matching
subject of a multi-subject candidate suffices to suppress. -/
theorem claim_C2_allowlist_suppression :
    ∀ (c : CandidateFinding) (candidates : List CandidateFinding)
      (entries : List AllowlistEntry) (now : Instant),
      c ∈ allowlistFilter candidates entries now ↔
        (c ∈ candidates ∧
         ¬ ∃ e ∈ entries,
             (e.expires_at = none ∨ ∃ t, e.expires_at = some t ∧ now < t) ∧
             (∃ s ∈ c.subjects, s.1 = e.entry_type ∧ s.2 = e.entry_value) ∧
             (e.rule_id = none ∨ e.rule_id = some c.rule_id)) := by
  intro c candidates entries now
  rw [allowlistFilter, List.mem_filter, bool_not_eq_true_iff, suppressedByAllowlist_iff]

/-- C3: the Deduplicator keeps a candidate iff no stored alert with the
same `rule_id` has an `alert_time` within the last hour, regardless of
subject; concretely, at instant 600 a matching alert 10 minutes old
(`alert_time = 590`) suppresses the candidate and one 61 minutes old
(`alert_time = 539`) does not. -/
theorem claim_C3_dedup_lookback :
    (∀ (c : CandidateFinding) (candidates : List CandidateFinding)
       (store : List Alert) (now : Instant),
       c ∈ dedupe candidates store now ↔
         (c ∈ candidates ∧
          ¬ ∃ a ∈ store, a.rule_id = c.rule_id ∧
              now - dedupLookbackMinutes ≤ a.alert_time)) ∧
    dedupe [sampleCandidate] [sampleRecentAlert] 600 = [] ∧
    dedupe [sampleCandidate] [sampleStaleAlert] 600 = [sampleCandidate] := by
  refine ⟨?_, by decide, by decide⟩
  intro c candidates store now
  rw [dedupe, List.mem_filter, bool_not_eq_true_iff, recentDuplicate_iff]

/-- Membership characterization of the brute-force detect output: a
candidate is emitted exactly for the source-IP groups whose relevant
failure count reaches 5. -/
lemma mem_bruteForceDetect_iff (events : List Event) (ws we : Instant)
    (c : CandidateFinding) :
    c ∈ bruteForceDetect events ws we ↔
      ∃ ip, ip ∈ ((bruteForceRelevant events ws we).map (·.source_ip)).dedup ∧
        5 ≤ (bruteForceRelevant events ws we).countP (fun e => e.source_ip == ip) ∧
        c = bruteForceCandidate ip
              ((bruteForceRelevant events ws we).countP (fun e => e.source_ip == ip))
              ws we := by
  simp only [bruteForceDetect]
  rw [List.mem_filterMap]
  constructor
  · rintro ⟨ip, hip, hf⟩
    by_cases h5 : 5 ≤ (bruteForceRelevant events ws we).countP (fun e => e.source_ip == ip)
    · rw [if_pos h5] at hf
      exact ⟨ip, hip, h5, (Option.some.inj hf).symm⟩
    · rw [if_neg h5] at hf
      cases hf
  · rintro ⟨ip, hip, h5, hc⟩
    exact ⟨ip, hip, by rw [if_pos h5, hc]⟩

/-- The subjects of a brute-force candidate name exactly the grouped
source IP, when there is one. -/
lemma mem_subjects_bruteForceCandidate (ip : Option String) (n : Nat) (ws we : Instant)
    (v : String) :
    (SubjectKind.ip, v) ∈ (bruteForceCandidate ip n ws we).subjects ↔ ip = some v := by
  cases ip <;> simp [bruteForceCandidate, eq_comm]

/-- C4: the `brute_force_login` rule emits a finding whose subject is a
given source IP iff the window holds at least 5 events with a
login-family action and outcome `failure` from that IP; concretely, 4
such failures emit nothing and 5 emit exactly one finding. -/
theorem claim_C4_brute_force_threshold :
    (∀ (events : List Event) (ws we : Instant) (v : String),
       (∃ c ∈ bruteForceDetect events ws we, (SubjectKind.ip, v) ∈ c.subjects) ↔
         5 ≤ bruteForceFailureCount events ws we (some v)) ∧
    bruteForceDetect fourFailures 0 15 = [] ∧
    bruteForceDetect fiveFailures 0 15 =
      [bruteForceCandidate (some "203.0.113.45") 5 0 15] := by
  refine ⟨?_, by decide, by decide⟩
  intro events ws we v
  constructor
  · rintro ⟨c, hc, hv⟩
    rw [mem_bruteForceDetect_iff] at hc
    obtain ⟨ip, hip, h5, rfl⟩ := hc
    rw [mem_subjects_bruteForceCandidate] at hv
    subst hv
    exact h5
  · intro h5
    have hpos : 0 < (bruteForceRelevant events ws we).countP
        (fun e => e.source_ip == some v) :=
      lt_of_lt_of_le (by norm_num) h5
    rw [List.countP_pos_iff] at hpos
    obtain ⟨e, he, hev⟩ := hpos
    have hmem : some v ∈ ((bruteForceRelevant events ws we).map (·.source_ip)).dedup := by
      rw [List.mem_dedup, List.mem_map]
      exact ⟨e, he, by simpa using hev⟩
    refine ⟨bruteForceCandidate (some v)
      ((bruteForceRelevant events ws we).countP (fun e => e.source_ip == some v)) ws we,
      ?_, ?_⟩
    · rw [mem_bruteForceDetect_iff]
      exact ⟨some v, hmem, h5, rfl⟩
    · rw [mem_subjects_bruteForceCandidate]

/-- Generalized unfolding of the executor's fold over the rule list. -/
lemma run_all_foldl (rules : List Rule) (events : List Event) (now : Instant) :
    ∀ (cs : List CandidateFinding) (es : List (String × String)),
      rules.foldl
        (fun acc r =>
          match r.detect events (windowStart now r) now with
          | .ok new => (acc.1 ++ new, acc.2)
          | .error e => (acc.1, acc.2 ++ [(r.rule_id, e)]))
        (cs, es) =
      (cs ++ (rules.map (fun r =>
          ((r.detect events (windowStart now r) now).toOption.getD []))).flatten,
       es ++ rules.filterMap (fun r =>
          match r.detect events (windowStart now r) now with
          | .ok _ => none
          | .error e => some (r.rule_id, e))) := by
  induction rules with
  | nil => intro cs es; simp
  | cons r rest ih =>
      intro cs es
      cases hd : r.detect events (windowStart now r) now with
      | ok new =>
          simp [List.foldl_cons, hd, ih, Except.toOption, List.append_assoc]
      | error e =>
          simp [List.foldl_cons, hd, ih, Except.toOption, List.append_assoc]

/-- Closed form of `run_all`: candidates are the concatenation, in rule
order, of the successful rules' outputs; errors are the failing rules
paired with their messages. -/
lemma run_all_eq (rules : List Rule) (events : List Event) (now : Instant) :
    run_all rules events now =
      ((rules.map (fun r =>
          ((r.detect events (windowStart now r) now).toOption.getD []))).flatten,
       rules.filterMap (fun r =>
          match r.detect events (windowStart now r) now with
          | .ok _ => none
          | .error e => some (r.rule_id, e))) := by
  unfold run_all
  simpa using run_all_foldl rules events now [] []

/-- C7: if one rule's `detect` fails during `run_all`, its failure is
recorded in the per-rule error mapping, and every sibling rule that
succeeds still has all its candidates collected — one failure never aborts
the run. -/
theorem claim_C7_rule_failure_isolation :
    ∀ (rules : List Rule) (events : List Event) (now : Instant) (r : Rule) (err : String),
      r ∈ rules → r.detect events (windowStart now r) now = .error err →
      ((r.rule_id, err) ∈ (run_all rules events now).2 ∧
       ∀ (r' : Rule) (cs : List CandidateFinding),
         r' ∈ rules → r'.detect events (windowStart now r') now = .ok cs →
         ∀ c ∈ cs, c ∈ (run_all rules events now).1) := by
  intro rules events now r err hr hdet
  rw [run_all_eq]
  constructor
  · rw [List.mem_filterMap]
    exact ⟨r, hr, by rw [hdet]⟩
  · intro r' cs hr' hdet' c hc
    rw [List.mem_flatten]
    refine ⟨cs, ?_, hc⟩
    rw [List.mem_map]
    exact ⟨r', hr', by rw [hdet']; rfl⟩

/-- Witness for C7 at a concrete pair of rules: the failing rule's error
is recorded and the succeeding rule's candidate is still collected. -/
theorem claim_C7_witness :
    ((ruleFails.rule_id, "query failed") ∈ (run_all [ruleFails, ruleEmits] [] 0).2) ∧
    (∀ (r' : Rule) (cs : List CandidateFinding),
       r' ∈ [ruleFails, ruleEmits] → r'.detect [] (windowStart 0 r') 0 = .ok cs →
       ∀ c ∈ cs, c ∈ (run_all [ruleFails, ruleEmits] [] 0).1) :=
  claim_C7_rule_failure_isolation [ruleFails, ruleEmits] [] 0 ruleFails "query failed"
    (List.mem_cons_self _ _) rfl

/-- Every surviving candidate leaves a materialized alert carrying its
`rule_id` and `alert_time`. -/
lemma materialize_mem (cs : List CandidateFinding) (now : Instant) :
    ∀ (nextId : Nat) (c : CandidateFinding), c ∈ cs →
      ∃ a ∈ materialize cs now nextId,
        a.rule_id = c.rule_id ∧ a.alert_time = c.alert_time := by
  induction cs with
  | nil => intro _ c hc; cases hc
  | cons c0 rest ih =>
      intro nextId c hc
      rcases List.mem_cons.1 hc with h | h
      · subst h
        exact ⟨alertOfCandidate c now nextId, List.mem_cons_self _ _, rfl, rfl⟩
      · obtain ⟨a, ha, h1, h2⟩ := ih (nextId + 1) c h
        exact ⟨a, List.mem_cons_of_mem _ ha, h1, h2⟩

/-- The recent-duplicate test over a concatenated store splits. -/
lemma recentDuplicate_append (s1 s2 : List Alert) (c : CandidateFinding) (now : Instant) :
    recentDuplicate (s1 ++ s2) c now =
      (recentDuplicate s1 c now || recentDuplicate s2 c now) := by
  unfold recentDuplicate
  exact List.any_append

/-- C6: running the detection pipeline twice in immediate succession over
the same unchanged event set, allowlist, and `now` generates alerts only
on the first run: every candidate of the second run is deduplicated, so
the second run adds zero alerts and leaves the store unchanged.  The
hypothesis records the §3 convention that a candidate's `alert_time` lies
inside its window, hence within the dedup lookback of `now`. -/
theorem claim_C6_second_run_deduplicated :
    ∀ (rules : List Rule) (events : List Event) (entries : List AllowlistEntry)
      (store : List Alert) (now : Instant) (id1 id2 : Nat),
      (∀ c ∈ (run_all rules events now).1, now - dedupLookbackMinutes ≤ c.alert_time) →
      ((run_detections rules events entries
          (run_detections rules events entries store now id1).1 now id2).2.alerts_generated
            = 0 ∧
       (run_detections rules events entries
          (run_detections rules events entries store now id1).1 now id2).1 =
         (run_detections rules events entries store now id1).1) := by
  intro rules events entries store now id1 id2 h
  have hdup : ∀ c ∈ allowlistFilter (run_all rules events now).1 entries now,
      recentDuplicate
        (store ++ materialize
          (dedupe (allowlistFilter (run_all rules events now).1 entries now) store now)
          now id1) c now = true := by
    intro c hcA
    rw [recentDuplicate_append, Bool.or_eq_true]
    by_cases hd : recentDuplicate store c now = true
    · exact Or.inl hd
    · right
      have hcS : c ∈ dedupe (allowlistFilter (run_all rules events now).1 entries now)
          store now := by
        rw [dedupe, List.mem_filter]
        refine ⟨hcA, ?_⟩
        rw [bool_not_eq_true_iff]
        exact hd
      obtain ⟨a, ha, h1, h2⟩ := materialize_mem _ now id1 c hcS
      rw [recentDuplicate_iff]
      refine ⟨a, ha, h1, ?_⟩
      rw [h2]
      exact h c (List.mem_filter.1 hcA).1
  have hkey : dedupe (allowlistFilter (run_all rules events now).1 entries now)
      (store ++ materialize
        (dedupe (allowlistFilter (run_all rules events now).1 entries now) store now)
        now id1) now = [] := by
    rw [dedupe]
    refine List.filter_eq_nil_iff.2 ?_
    intro c hc hbad
    rw [bool_not_eq_true_iff] at hbad
    exact hbad (hdup c hc)
  constructor
  · simp only [run_detections]
    rw [hkey]
    rfl
  · simp only [run_detections]
    rw [hkey]
    simp [materialize]

/-- Witness for C6 at a concrete rule and store: the first run at instant
600 materializes the sample candidate, the second run adds nothing. -/
theorem claim_C6_witness :
    (run_detections [ruleEmits] [] []
        (run_detections [ruleEmits] [] [] [] 600 1).1 600 10).2.alerts_generated = 0 ∧
    (run_detections [ruleEmits] [] []
        (run_detections [ruleEmits] [] [] [] 600 1).1 600 10).1 =
      (run_detections [ruleEmits] [] [] [] 600 1).1 :=
  claim_C6_second_run_deduplicated [ruleEmits] [] [] [] 600 1 10 (by decide)

/-- The dashboard's visibility test agrees with the claim's phrasing. -/
lemma alertVisible_iff (f s : String) (a : Frontend.Alert) :
    Frontend.alertVisible f s a = true ↔
      ((f = "all" ∨ a.status = f) ∧ (s = "all" ∨ a.severity = s)) := by
  unfold Frontend.alertVisible
  by_cases h1 : f = "all" <;> by_cases h2 : a.status = f <;>
    by_cases h3 : s = "all" <;> by_cases h4 : a.severity = s <;>
      simp [h1, h2, h3, h4]

/-- C10: the dashboard displays an alert iff the status dropdown is
`all` or equals its status and the severity dropdown is `all` or equals
its severity, while the four stat counters are computed over the full
unfiltered fetched list, so changing either dropdown never changes any
counter. -/
theorem claim_C10_dashboard_filters_and_stats :
    ∀ (alerts : List Frontend.Alert) (statusFilter severityFilter : String)
      (a : Frontend.Alert),
      (a ∈ (Frontend.homePageView alerts statusFilter severityFilter).1 ↔
        (a ∈ alerts ∧ (statusFilter = "all" ∨ a.status = statusFilter) ∧
         (severityFilter = "all" ∨ a.severity = severityFilter))) ∧
      (Frontend.homePageView alerts statusFilter severityFilter).2 =
        (Frontend.homePageView alerts "all" "all").2 := by
  intro alerts f s a
  refine ⟨?_, rfl⟩
  simp only [Frontend.homePageView]
  rw [Frontend.filteredAlerts, List.mem_filter, alertVisible_iff]

end SignalForge
